import Mathlib

/-
Verification of the indexing-job fencing and supervision protocol
(backend/onyx/background/celery/tasks/indexing/tasks.py and
backend/onyx/background/celery/tasks/beat_schedule.py).

The Python code is shallowly embedded: redis reads, the celery task-queue
view and the DB rows touched by one run are captured as explicit inputs,
and each task body becomes a pure function from those inputs to the
state it writes back.
-/

/-- The terminal statuses the indexing watchdog can finish with, transcribed
from the IndexingWatchdogTerminalStatus enum in tasks.py. -/
inductive IndexingWatchdogTerminalStatus where
  | UNDEFINED
  | SUCCEEDED
  | SPAWN_FAILED
  | SPAWN_NOT_ALIVE
  | BLOCKED_BY_DELETION
  | BLOCKED_BY_STOP_SIGNAL
  | FENCE_NOT_FOUND
  | FENCE_READINESS_TIMEOUT
  | FENCE_MISMATCH
  | TASK_ALREADY_RUNNING
  | INDEX_ATTEMPT_MISMATCH
  | CONNECTOR_VALIDATION_ERROR
  | CONNECTOR_EXCEPTIONED
  | WATCHDOG_EXCEPTIONED
  | TERMINATED_BY_SIGNAL
  | TERMINATED_BY_ACTIVITY_TIMEOUT
  | OUT_OF_MEMORY
  | PROCESS_SIGNAL_SIGKILL
  deriving DecidableEq, Repr

namespace IndexingWatchdogTerminalStatus

/-- The code property of IndexingWatchdogTerminalStatus: the dict lookup
_ENUM_TO_CODE[self] raises KeyError for statuses missing from the table,
which is rendered here as none. -/
def codeOf : IndexingWatchdogTerminalStatus → Option Int
  | .PROCESS_SIGNAL_SIGKILL => some (-9)
  | .OUT_OF_MEMORY => some 137
  | .CONNECTOR_VALIDATION_ERROR => some 247
  | .BLOCKED_BY_DELETION => some 248
  | .BLOCKED_BY_STOP_SIGNAL => some 249
  | .FENCE_NOT_FOUND => some 250
  | .FENCE_READINESS_TIMEOUT => some 251
  | .FENCE_MISMATCH => some 252
  | .TASK_ALREADY_RUNNING => some 253
  | .INDEX_ATTEMPT_MISMATCH => some 254
  | .CONNECTOR_EXCEPTIONED => some 255
  | _ => none

/-- The classmethod from_code of IndexingWatchdogTerminalStatus: the
_CODE_TO_ENUM dict lookup with an UNDEFINED fallback for unmapped codes. -/
def from_code (code : Int) : IndexingWatchdogTerminalStatus :=
  if code = -9 then .PROCESS_SIGNAL_SIGKILL
  else if code = 137 then .OUT_OF_MEMORY
  else if code = 247 then .CONNECTOR_VALIDATION_ERROR
  else if code = 248 then .BLOCKED_BY_DELETION
  else if code = 249 then .BLOCKED_BY_STOP_SIGNAL
  else if code = 250 then .FENCE_NOT_FOUND
  else if code = 251 then .FENCE_READINESS_TIMEOUT
  else if code = 252 then .FENCE_MISMATCH
  else if code = 253 then .TASK_ALREADY_RUNNING
  else if code = 254 then .INDEX_ATTEMPT_MISMATCH
  else if code = 255 then .CONNECTOR_EXCEPTIONED
  else .UNDEFINED

end IndexingWatchdogTerminalStatus

/-- The set of exit codes that appear in the _ENUM_TO_CODE table of
IndexingWatchdogTerminalStatus. -/
def definedExitCodes : List Int :=
  [-9, 137, 247, 248, 249, 250, 251, 252, 253, 254, 255]

/-- C2: the exit-code table round-trips. For every code c in the defined set,
from_code(c).code = c; every integer outside the set maps to UNDEFINED; and
UNDEFINED itself has no defined code (its code lookup raises KeyError). -/
theorem exit_code_table_round_trips :
    (∀ c : Int, c ∈ definedExitCodes →
      (IndexingWatchdogTerminalStatus.from_code c).codeOf = some c)
    ∧ (∀ c : Int, c ∉ definedExitCodes →
      IndexingWatchdogTerminalStatus.from_code c = .UNDEFINED)
    ∧ IndexingWatchdogTerminalStatus.codeOf .UNDEFINED = none := by
  refine ⟨?_, ?_, rfl⟩
  · intro c hc
    simp only [definedExitCodes, List.mem_cons, List.not_mem_nil, or_false] at hc
    rcases hc with rfl | rfl | rfl | rfl | rfl | rfl | rfl | rfl | rfl | rfl | rfl <;> rfl
  · intro c hc
    simp only [definedExitCodes, List.mem_cons, List.not_mem_nil, or_false, not_or] at hc
    obtain ⟨h1, h2, h3, h4, h5, h6, h7, h8, h9, h10, h11⟩ := hc
    simp [IndexingWatchdogTerminalStatus.from_code, h1, h2, h3, h4, h5, h6, h7, h8, h9,
      h10, h11]

/-- Witness for C2 at the concrete codes 137 (defined) and 5 (undefined). -/
theorem exit_code_table_round_trips_witness :
    (IndexingWatchdogTerminalStatus.from_code 137).codeOf = some 137
    ∧ IndexingWatchdogTerminalStatus.from_code 5 = .UNDEFINED :=
  ⟨exit_code_table_round_trips.1 137 (by decide),
   exit_code_table_round_trips.2.1 5 (by decide)⟩

/-- C10: the enum-to-exit-code mapping is partial. The seven statuses
SUCCEEDED, UNDEFINED, SPAWN_FAILED, SPAWN_NOT_ALIVE, WATCHDOG_EXCEPTIONED,
TERMINATED_BY_SIGNAL and TERMINATED_BY_ACTIVITY_TIMEOUT have no code (the
code property raises KeyError on them), while exactly the eleven statuses
in the table carry a defined code. -/
theorem code_property_is_partial :
    (IndexingWatchdogTerminalStatus.codeOf .SUCCEEDED = none
      ∧ IndexingWatchdogTerminalStatus.codeOf .UNDEFINED = none
      ∧ IndexingWatchdogTerminalStatus.codeOf .SPAWN_FAILED = none
      ∧ IndexingWatchdogTerminalStatus.codeOf .SPAWN_NOT_ALIVE = none
      ∧ IndexingWatchdogTerminalStatus.codeOf .WATCHDOG_EXCEPTIONED = none
      ∧ IndexingWatchdogTerminalStatus.codeOf .TERMINATED_BY_SIGNAL = none
      ∧ IndexingWatchdogTerminalStatus.codeOf .TERMINATED_BY_ACTIVITY_TIMEOUT = none)
    ∧ (∀ s : IndexingWatchdogTerminalStatus,
        (s.codeOf).isSome = true ↔
          s ∈ [IndexingWatchdogTerminalStatus.PROCESS_SIGNAL_SIGKILL,
               .OUT_OF_MEMORY, .CONNECTOR_VALIDATION_ERROR, .BLOCKED_BY_DELETION,
               .BLOCKED_BY_STOP_SIGNAL, .FENCE_NOT_FOUND, .FENCE_READINESS_TIMEOUT,
               .FENCE_MISMATCH, .TASK_ALREADY_RUNNING, .INDEX_ATTEMPT_MISMATCH,
               .CONNECTOR_EXCEPTIONED]) := by
  refine ⟨by decide, ?_⟩
  intro s
  cases s <;> decide

/-- Modelled from the spec: ConnectorCredentialPairStatus from onyx.db.enums
(not under src), with members SCHEDULED, INITIAL_INDEXING, ACTIVE, PAUSED,
DELETING as listed in the data model section of the spec. -/
inductive ConnectorCredentialPairStatus where
  | SCHEDULED
  | INITIAL_INDEXING
  | ACTIVE
  | PAUSED
  | DELETING
  deriving DecidableEq, Repr

/-- Modelled from the spec: IndexingStatus from onyx.db.enums (not under src),
with members NOT_STARTED, IN_PROGRESS, SUCCESS, FAILED, CANCELED as listed in
the data model section of the spec. -/
inductive IndexingStatus where
  | NOT_STARTED
  | IN_PROGRESS
  | SUCCESS
  | FAILED
  | CANCELED
  deriving DecidableEq, Repr

/-- Modelled from the spec: IndexingStatus.is_successful from onyx.db.enums
(not under src). Of the statuses the spec lists, only SUCCESS counts as a
successful terminal status. -/
def IndexingStatus.is_successful : IndexingStatus → Bool
  | .SUCCESS => true
  | _ => false

/-- The fence payload fields the protocol reads (RedisConnectorIndexPayload).
Timestamp fields (submitted, started) are used only for log formatting and are
abstracted into the preformatted log strings of the state record. -/
structure FencePayload where
  index_attempt_id : Option Int
  celery_task_id : Option String
  deriving DecidableEq, Repr

/-- The IndexAttempt row fields the protocol reads and writes. -/
structure IndexAttempt where
  status : IndexingStatus
  failure_reason : Option String
  deriving DecidableEq, Repr

/-- The ConnectorCredentialPair row fields the protocol reads and writes. -/
structure ConnectorCredentialPair where
  status : ConnectorCredentialPairStatus
  in_repeated_error_state : Bool
  deriving DecidableEq, Repr

/-- Modelled from the spec: mark_attempt_failed from onyx.db.index_attempt
(not under src) transitions the IndexAttempt to the FAILED terminal status and
records the given failure reason. -/
def mark_attempt_failed (a : IndexAttempt) (failure_reason : String) : IndexAttempt :=
  { a with status := .FAILED, failure_reason := some failure_reason }

/-- The member values of http.HTTPStatus in Python 3.11; the constructor
HTTPStatus(n) raises ValueError for any other integer. -/
def isHTTPStatusCode (n : Int) : Bool :=
  n ∈ ([100, 101, 102, 103,
        200, 201, 202, 203, 204, 205, 206, 207, 208, 226,
        300, 301, 302, 303, 304, 305, 307, 308,
        400, 401, 402, 403, 404, 405, 406, 407, 408, 409, 410, 411, 412, 413,
        414, 415, 416, 417, 418, 421, 422, 423, 424, 425, 426, 428, 429, 431, 451,
        500, 501, 502, 503, 504, 505, 506, 507, 508, 510, 511] : List Int)

/-- One run of monitor_ccpair_indexing_taskset reads this snapshot of redis,
the celery result backend and the DB. The two reads of generator_complete in
the inner/outer/inner double check are completion1 and completion2; the
preformatted elapsed and state strings stand for log-only f-string pieces. -/
structure MonitorEnv where
  cc_pair_id : Int
  search_settings_id : Int
  fenced : Bool
  payload : Option FencePayload
  pair : ConnectorCredentialPair
  completion1 : Option Int
  taskReady : Bool
  completion2 : Option Int
  elapsedSubmittedStr : String
  taskStateStr : String
  taskResultStr : String
  taskTracebackStr : String
  watchdog_signaled : Bool
  attempt : Option IndexAttempt
  deriving DecidableEq, Repr

/-- The state a run of monitor_ccpair_indexing_taskset writes back: whether
the fence was reset, and the IndexAttempt and ConnectorCredentialPair rows as
the run leaves them. -/
structure MonitorOut where
  fenceReset : Bool
  attempt : Option IndexAttempt
  pair : ConnectorCredentialPair
  deriving DecidableEq, Repr

/-- The part of the crash-inference failure-reason message that precedes the
captured task result, transcribed from the f-string in
monitor_ccpair_indexing_taskset. -/
def crashMsgHead (env : MonitorEnv) (p : FencePayload) : String :=
  "Connector indexing aborted or exceptioned: attempt="
    ++ (match p.index_attempt_id with | none => "None" | some n => toString n)
    ++ " celery_task="
    ++ (match p.celery_task_id with | none => "None" | some s => s)
    ++ " cc_pair=" ++ toString env.cc_pair_id
    ++ " search_settings=" ++ toString env.search_settings_id
    ++ " elapsed_submitted=" ++ env.elapsedSubmittedStr
    ++ " result.state=" ++ env.taskStateStr
    ++ " result.result="

/-- The failure-reason message the Monitor writes on the crash-inference path,
transcribed from the f-string in monitor_ccpair_indexing_taskset. -/
def crashMsg (env : MonitorEnv) (p : FencePayload) : String :=
  crashMsgHead env p ++ env.taskResultStr
    ++ " result.traceback=" ++ env.taskTracebackStr

/-- The unconditional first step of the Monitor on a fenced pair: a SCHEDULED
pair is moved to INITIAL_INDEXING. -/
def schedStep (pair : ConnectorCredentialPair) : ConnectorCredentialPair :=
  if pair.status = .SCHEDULED then { pair with status := .INITIAL_INDEXING } else pair

/-- One run of monitor_ccpair_indexing_taskset, starting after the fence-key
parse (the parsed pair and search-settings ids are inputs). The error case is
the ValueError HTTPStatus(status_int) raises on a non-HTTP completion value;
the missing-pair RuntimeError is outside the state space since the pair row is
a required input. Transient DB exceptions around mark_attempt_failed are not
modelled. -/
def monitor_ccpair_indexing_taskset (env : MonitorEnv) : Except Int MonitorOut :=
  if env.fenced = false then .ok ⟨false, env.attempt, env.pair⟩
  else
    match env.payload with
    | none => .ok ⟨false, env.attempt, env.pair⟩
    | some payload =>
      let pair1 := schedStep env.pair
      if payload.index_attempt_id = none ∨ payload.celery_task_id = none then
        -- the task is still setting up
        .ok ⟨false, env.attempt, pair1⟩
      else
        match env.completion1 with
        | none =>
          if env.taskReady then
            if env.completion2 = none then
              -- double check: task finished but generator complete is not set
              let attempt1 : Option IndexAttempt :=
                match env.attempt with
                | none => none
                | some a =>
                  if a.status ≠ .CANCELED ∧ a.status ≠ .FAILED then
                    some (mark_attempt_failed a (crashMsg env payload))
                  else some a
              .ok ⟨true, attempt1, pair1⟩
            else .ok ⟨false, env.attempt, pair1⟩
          else .ok ⟨false, env.attempt, pair1⟩
        | some status_int =>
          if env.watchdog_signaled then
            -- delay finalization until the watchdog has exited
            .ok ⟨false, env.attempt, pair1⟩
          else if isHTTPStatusCode status_int = false then .error status_int
          else
            -- finalization: reset the fence and advance the pair
            let is_succ : Bool :=
              match env.attempt with
              | some a => a.status.is_successful
              | none => false
            let pair2 :=
              if (is_succ = true ∧ pair1.status = .SCHEDULED)
                  ∨ pair1.status = .INITIAL_INDEXING then
                { pair1 with status := .ACTIVE }
              else pair1
            let pair3 :=
              if pair2.in_repeated_error_state = true ∧ is_succ = true then
                { pair2 with in_repeated_error_state := false }
              else pair2
            .ok ⟨true, env.attempt, pair3⟩

/-- A concrete Monitor snapshot used by the witnesses: fenced, payload fully
populated, generator complete with HTTP 200, watchdog still signaled, pair
SCHEDULED, attempt IN_PROGRESS. -/
def envBase : MonitorEnv :=
  { cc_pair_id := 1
    search_settings_id := 2
    fenced := true
    payload := some ⟨some 10, some "ct"⟩
    pair := ⟨.SCHEDULED, false⟩
    completion1 := some 200
    taskReady := false
    completion2 := none
    elapsedSubmittedStr := "1.00"
    taskStateStr := "STARTED"
    taskResultStr := "res"
    taskTracebackStr := "tb"
    watchdog_signaled := true
    attempt := some ⟨.IN_PROGRESS, none⟩ }

/-- C7: Monitor deferral. When generator_complete is set but the watchdog
signal is still present, the Monitor returns without resetting the fence,
without touching the IndexAttempt, and with the pair changed only by the
unconditional SCHEDULED to INITIAL_INDEXING step. -/
theorem monitor_defers_while_watchdog_alive (env : MonitorEnv) (p : FencePayload) (v : Int)
    (hf : env.fenced = true) (hp : env.payload = some p)
    (hc : env.completion1 = some v) (hw : env.watchdog_signaled = true) :
    monitor_ccpair_indexing_taskset env = .ok ⟨false, env.attempt, schedStep env.pair⟩ := by
  simp only [monitor_ccpair_indexing_taskset, hf, hp, hc, hw, Bool.true_eq_false,
    if_false, ite_self]
  split <;> rfl

/-- Witness for C7 at the concrete snapshot envBase. -/
theorem monitor_defers_while_watchdog_alive_witness :
    monitor_ccpair_indexing_taskset envBase
      = .ok ⟨false, some ⟨.IN_PROGRESS, none⟩, ⟨.INITIAL_INDEXING, false⟩⟩ := by
  have h := monitor_defers_while_watchdog_alive envBase ⟨some 10, some "ct"⟩ 200
    rfl rfl rfl rfl
  simpa [envBase, schedStep] using h

/-- C8: terminal status is written at most once on the crash-inference path.
If the IndexAttempt is already CANCELED or FAILED, the Monitor leaves it
untouched while still resetting the fence. -/
theorem monitor_preserves_existing_terminal_status (env : MonitorEnv) (p : FencePayload)
    (a : IndexAttempt)
    (hf : env.fenced = true) (hp : env.payload = some p)
    (hid : p.index_attempt_id ≠ none) (hct : p.celery_task_id ≠ none)
    (hc1 : env.completion1 = none) (hr : env.taskReady = true) (hc2 : env.completion2 = none)
    (ha : env.attempt = some a) (hterm : a.status = .CANCELED ∨ a.status = .FAILED) :
    monitor_ccpair_indexing_taskset env = .ok ⟨true, some a, schedStep env.pair⟩ := by
  simp only [monitor_ccpair_indexing_taskset, hf, hp, hid, hct, hc1, hr, hc2, ha]
  rcases hterm with h | h <;> simp [h]

/-- Witness for C8: an attempt already CANCELED stays CANCELED while the fence
is reset. -/
theorem monitor_preserves_existing_terminal_status_witness :
    monitor_ccpair_indexing_taskset
      { envBase with
          completion1 := none, taskReady := true,
          attempt := some ⟨.CANCELED, none⟩ }
      = .ok ⟨true, some ⟨.CANCELED, none⟩, ⟨.INITIAL_INDEXING, false⟩⟩ := by
  have h := monitor_preserves_existing_terminal_status
    { envBase with
        completion1 := none, taskReady := true,
        attempt := some ⟨.CANCELED, none⟩ }
    ⟨some 10, some "ct"⟩ ⟨.CANCELED, none⟩
    rfl rfl (by simp [envBase]) (by simp [envBase]) rfl rfl rfl rfl (Or.inl rfl)
  simpa [envBase, schedStep] using h

/-- The concrete crash-inference snapshot on which claim C3, read literally,
fails: the attempt is already CANCELED, so mark_attempt_failed is skipped. -/
def envCrashCanceled : MonitorEnv :=
  { envBase with
      completion1 := none, taskReady := true, completion2 := none,
      watchdog_signaled := false, attempt := some ⟨.CANCELED, none⟩ }

/-- Counterexample to C3 as stated: a run satisfying every hypothesis of the
claim (payload fully populated, generator_complete unset on both reads, task
in a READY state) on which the Monitor does not mark the attempt FAILED,
because the attempt is already CANCELED; the fence is still reset. -/
theorem monitor_crash_inference_cex :
    (envCrashCanceled.fenced = true
      ∧ envCrashCanceled.payload = some ⟨some 10, some "ct"⟩
      ∧ envCrashCanceled.completion1 = none
      ∧ envCrashCanceled.taskReady = true
      ∧ envCrashCanceled.completion2 = none)
    ∧ monitor_ccpair_indexing_taskset envCrashCanceled
        = .ok ⟨true, some ⟨.CANCELED, none⟩, ⟨.INITIAL_INDEXING, false⟩⟩
    ∧ ¬ (∀ out : MonitorOut, monitor_ccpair_indexing_taskset envCrashCanceled = .ok out →
          ∃ a, out.attempt = some a ∧ a.status = .FAILED) := by
  refine ⟨⟨rfl, rfl, rfl, rfl, rfl⟩, rfl, ?_⟩
  intro h
  obtain ⟨a, ha, hs⟩ :=
    h ⟨true, some ⟨.CANCELED, none⟩, ⟨.INITIAL_INDEXING, false⟩⟩ rfl
  have haa : (⟨.CANCELED, none⟩ : IndexAttempt) = a := Option.some_inj.mp ha
  rw [← haa] at hs
  exact absurd hs (by decide)

/-- C3 amended: on the crash-inference path (payload fully populated,
generator_complete unset, task READY, double check still unset) the Monitor
always resets the fence, and whenever the attempt exists and is not already
in a terminal CANCELED or FAILED status it is marked FAILED with a failure
reason that contains the captured task result and traceback. -/
theorem monitor_crash_inference (env : MonitorEnv) (p : FencePayload)
    (hf : env.fenced = true) (hp : env.payload = some p)
    (hid : p.index_attempt_id ≠ none) (hct : p.celery_task_id ≠ none)
    (hc1 : env.completion1 = none) (hr : env.taskReady = true) (hc2 : env.completion2 = none) :
    (∃ out : MonitorOut, monitor_ccpair_indexing_taskset env = .ok out
      ∧ out.fenceReset = true
      ∧ out.pair = schedStep env.pair
      ∧ (env.attempt = none → out.attempt = none)
      ∧ (∀ a, env.attempt = some a → a.status ≠ .CANCELED → a.status ≠ .FAILED →
          out.attempt = some (mark_attempt_failed a (crashMsg env p))))
    ∧ (∃ pre mid : String,
        crashMsg env p = pre ++ env.taskResultStr ++ mid ++ env.taskTracebackStr) := by
  constructor
  · refine ⟨⟨true,
      (match env.attempt with
        | none => none
        | some a =>
          if a.status ≠ .CANCELED ∧ a.status ≠ .FAILED then
            some (mark_attempt_failed a (crashMsg env p))
          else some a),
      schedStep env.pair⟩, ?_, rfl, rfl, ?_, ?_⟩
    · simp only [monitor_ccpair_indexing_taskset, hf, hp, hid, hct, hc1, hr, hc2]
      simp
    · intro ha
      simp [ha]
    · intro a ha h1 h2
      simp [ha, h1, h2]
  · exact ⟨crashMsgHead env p, " result.traceback=", rfl⟩

/-- Witness for C3 amended at a concrete crash-inference snapshot with an
IN_PROGRESS attempt. -/
theorem monitor_crash_inference_witness :
    ∃ out : MonitorOut,
      monitor_ccpair_indexing_taskset
        { envBase with completion1 := none, taskReady := true }
        = .ok out
      ∧ out.fenceReset = true
      ∧ out.pair = schedStep envBase.pair
      ∧ out.attempt = some (mark_attempt_failed ⟨.IN_PROGRESS, none⟩
          (crashMsg { envBase with completion1 := none, taskReady := true }
            ⟨some 10, some "ct"⟩)) := by
  obtain ⟨⟨out, hrun, hreset, hpair, _, hmark⟩, _⟩ :=
    monitor_crash_inference
      { envBase with completion1 := none, taskReady := true }
      ⟨some 10, some "ct"⟩
      rfl rfl (by simp [envBase]) (by simp [envBase]) rfl rfl rfl
  exact ⟨out, hrun, hreset, by simpa [envBase, schedStep] using hpair,
    hmark ⟨.IN_PROGRESS, none⟩ rfl (by decide) (by decide)⟩

/-- The concrete finalization snapshot exposing the boolean precedence slip of
claim C1: generator complete with HTTP 200, watchdog cleared, pair already
INITIAL_INDEXING, attempt FAILED. -/
def envFailedFinalize : MonitorEnv :=
  { envBase with
      pair := ⟨.INITIAL_INDEXING, false⟩,
      watchdog_signaled := false,
      attempt := some ⟨.FAILED, none⟩ }

/-- C1 failing input: the attempt finished FAILED, yet the Monitor advances
the INITIAL_INDEXING pair to ACTIVE, because the condition
(successful and SCHEDULED) or INITIAL_INDEXING ignores attempt success for
pairs already in INITIAL_INDEXING. The claim says the pair must be left
unchanged when the attempt is not successful. -/
theorem monitor_advances_failed_pair_to_active :
    envFailedFinalize.attempt = some ⟨.FAILED, none⟩
    ∧ IndexingStatus.FAILED.is_successful = false
    ∧ envFailedFinalize.pair.status = .INITIAL_INDEXING
    ∧ envFailedFinalize.completion1 = some 200
    ∧ envFailedFinalize.watchdog_signaled = false
    ∧ monitor_ccpair_indexing_taskset envFailedFinalize
        = .ok ⟨true, some ⟨.FAILED, none⟩, ⟨.ACTIVE, false⟩⟩ :=
  ⟨rfl, rfl, rfl, rfl, rfl, rfl⟩

/-- The fields of a finished SimpleJob that process_job_result reads: the
job status string, whether job.process is set, the process exit code, and
the string job.exception() returns. -/
structure SimpleJobModel where
  status : String
  hasProcess : Bool
  exitcode : Option Int
  exceptionStr : String
  deriving DecidableEq, Repr

/-- The SimpleJobResult record the watchdog carries, with the constructor
defaults of the Python class: status UNDEFINED and every other field unset. -/
structure SimpleJobResultM where
  status : IndexingWatchdogTerminalStatus
  connector_source : Option String
  exit_code : Option Int
  exception_str : Option String
  deriving DecidableEq, Repr

/-- The freshly constructed SimpleJobResult. -/
def initJobResult : SimpleJobResultM :=
  { status := .UNDEFINED, connector_source := none, exit_code := none,
    exception_str := none }

/-- One run of process_job_result over a finished job. The completion input
is the fence read redis_connector_index.get_completion(); the Python truthy
test on it means a completion of 0 is treated like an unset one. The error
case is the ValueError that HTTPStatus(status_int) raises on a non-zero
non-HTTP completion value, which the caller catches. -/
def process_job_result (job : SimpleJobModel) (connector_source : Option String)
    (completion : Option Int) : Except Int SimpleJobResultM :=
  let exit_code : Option Int := if job.hasProcess then job.exitcode else none
  let base : SimpleJobResultM :=
    { initJobResult with connector_source := connector_source, exit_code := exit_code }
  if job.status ≠ "error" then .ok { base with status := .SUCCEEDED }
  else
    let failRes : SimpleJobResultM :=
      { base with
          status := match exit_code with
            | some c => IndexingWatchdogTerminalStatus.from_code c
            | none => base.status,
          exception_str := some job.exceptionStr }
    match completion with
    | none => .ok failRes
    | some v =>
      if v = 0 then .ok failRes
      else if isHTTPStatusCode v = false then .error v
      else if v = 200 then
        -- exit code reporting is unreliable in some runtimes: completion OK
        -- forces SUCCEEDED despite the non-zero exit
        .ok { base with status := .SUCCEEDED }
      else .ok failRes

/-- C4: watchdog outcome classification by process_job_result. A job whose
status is not the error string is SUCCEEDED; a job in error whose fence
completion signal reads HTTP 200 is forced to SUCCEEDED; otherwise the status
comes from from_code on the exit code, with the job exception string
captured, and exit code 137 classifies as OUT_OF_MEMORY. -/
theorem process_job_result_classification (job : SimpleJobModel)
    (src : Option String) (completion : Option Int) :
    (job.status ≠ "error" →
      process_job_result job src completion
        = .ok { status := .SUCCEEDED, connector_source := src,
                exit_code := if job.hasProcess then job.exitcode else none,
                exception_str := none })
    ∧ (job.status = "error" → completion = some 200 →
      process_job_result job src completion
        = .ok { status := .SUCCEEDED, connector_source := src,
                exit_code := if job.hasProcess then job.exitcode else none,
                exception_str := none })
    ∧ (∀ c : Int, job.status = "error" →
        (completion = none ∨ completion = some 0
          ∨ (∃ v, completion = some v ∧ isHTTPStatusCode v = true ∧ v ≠ 200)) →
        job.hasProcess = true → job.exitcode = some c →
      process_job_result job src completion
        = .ok { status := IndexingWatchdogTerminalStatus.from_code c,
                connector_source := src, exit_code := some c,
                exception_str := some job.exceptionStr })
    ∧ IndexingWatchdogTerminalStatus.from_code 137 = .OUT_OF_MEMORY := by
  refine ⟨?_, ?_, ?_, rfl⟩
  · intro hs
    simp [process_job_result, hs, initJobResult]
  · intro hs hc
    simp [process_job_result, hs, hc, initJobResult, isHTTPStatusCode]
  · intro c hs hc hp he
    rcases hc with rfl | rfl | ⟨v, rfl, hv, hv200⟩
    · simp [process_job_result, hs, hp, he, initJobResult]
    · simp [process_job_result, hs, hp, he, initJobResult]
    · simp [process_job_result, hs, hp, he, hv, hv200, initJobResult]

/-- Witness for C4: a job in error with exit code 137 and no completion
signal classifies as OUT_OF_MEMORY with its exception captured, and a job in
error with completion 200 is forced SUCCEEDED. -/
theorem process_job_result_classification_witness :
    process_job_result ⟨"error", true, some 137, "oom"⟩ (some "web") none
      = .ok { status := .OUT_OF_MEMORY, connector_source := some "web",
              exit_code := some 137, exception_str := some "oom" }
    ∧ process_job_result ⟨"error", true, some 1, "exc"⟩ none (some 200)
      = .ok { status := .SUCCEEDED, connector_source := none,
              exit_code := some 1, exception_str := none } := by
  constructor
  · have h := (process_job_result_classification ⟨"error", true, some 137, "oom"⟩
      (some "web") none).2.2.1 137 rfl (Or.inl rfl) rfl rfl
    simpa using h
  · have h := (process_job_result_classification ⟨"error", true, some 1, "exc"⟩
      none (some 200)).2.1 rfl rfl
    simpa using h

/-- What one iteration of the fence readiness wait in connector_indexing_task
observes: fence missing, fence present but payload invalid, or a payload. -/
inductive FenceObs where
  | missing
  | noPayload
  | ready (p : FencePayload)
  deriving DecidableEq, Repr

/-- The outcome of the entry gate of connector_indexing_task: either a
SimpleJobException carrying the exit code of the given terminal status, or
the payload the loop broke out with. -/
inductive GateResult where
  | raised (status : IndexingWatchdogTerminalStatus)
  | ok (p : FencePayload)
  deriving DecidableEq, Repr

/-- The fence readiness spin wait of connector_indexing_task. Each iteration
sleeps one second, so the elapsed time time.monotonic() - start at iteration t
is t seconds; the loop raises FENCE_READINESS_TIMEOUT once t exceeds
CELERY_TASK_WAIT_FOR_FENCE_TIMEOUT (the timeoutS argument, a config constant
whose definition is not under src). The observation function obs gives the
redis state each iteration reads. -/
def waitForFence (timeoutS : Nat) (obs : Nat → FenceObs) (launchedId : Int)
    (t : Nat) : GateResult :=
  if _h : timeoutS < t then .raised .FENCE_READINESS_TIMEOUT
  else
    match obs t with
    | .missing => .raised .FENCE_NOT_FOUND
    | .noPayload => .raised .FENCE_NOT_FOUND
    | .ready p =>
      if p.index_attempt_id = none ∨ p.celery_task_id = none then
        waitForFence timeoutS obs launchedId (t + 1)
      else if p.index_attempt_id ≠ some launchedId then .raised .FENCE_MISMATCH
      else .ok p
termination_by timeoutS + 1 - t
decreasing_by omega

/-- The entry gate of connector_indexing_task: the deletion-fence and
stop-fence aborts followed by the fence readiness wait. Everything in this
prefix of the task runs before the first DB session is opened, so the DB
state db is threaded through untouched. -/
def connector_indexing_task_gate {DB : Type} (deleteFenced stopFenced : Bool)
    (timeoutS : Nat) (obs : Nat → FenceObs) (launchedId : Int) (db : DB) :
    GateResult × DB :=
  if deleteFenced then (.raised .BLOCKED_BY_DELETION, db)
  else if stopFenced then (.raised .BLOCKED_BY_STOP_SIGNAL, db)
  else (waitForFence timeoutS obs launchedId 0, db)

/-- When every observation through the timeout has a payload with an unset
attempt or task id, the wait times out. -/
lemma waitForFence_timeout (timeoutS : Nat) (obs : Nat → FenceObs) (launchedId : Int) :
    ∀ t, (∀ u, t ≤ u → u ≤ timeoutS →
        ∃ p, obs u = .ready p
          ∧ (p.index_attempt_id = none ∨ p.celery_task_id = none)) →
      waitForFence timeoutS obs launchedId t = .raised .FENCE_READINESS_TIMEOUT := by
  suffices H : ∀ fuel t, timeoutS + 1 - t ≤ fuel →
      (∀ u, t ≤ u → u ≤ timeoutS →
        ∃ p, obs u = .ready p
          ∧ (p.index_attempt_id = none ∨ p.celery_task_id = none)) →
      waitForFence timeoutS obs launchedId t = .raised .FENCE_READINESS_TIMEOUT by
    intro t hobs
    exact H (timeoutS + 1 - t) t le_rfl hobs
  intro fuel
  induction fuel with
  | zero =>
    intro t hf _
    have ht : timeoutS < t := by omega
    rw [waitForFence]
    simp [ht]
  | succ n ih =>
    intro t hf hobs
    rw [waitForFence]
    by_cases ht : timeoutS < t
    · simp [ht]
    · obtain ⟨p, hp, hids⟩ := hobs t le_rfl (by omega)
      simp only [ht, dite_false, hp]
      rw [if_pos hids]
      exact ih (t + 1) (by omega) (fun u hu1 hu2 => hobs u (by omega) hu2)

/-- When the payload stays unready up to some iteration within the timeout at
which it is populated with a mismatched attempt id, the wait raises the
mismatch. -/
lemma waitForFence_mismatch (timeoutS : Nat) (obs : Nat → FenceObs) (launchedId : Int) :
    ∀ t t0 p, t ≤ t0 → t0 ≤ timeoutS →
      (∀ u, t ≤ u → u < t0 →
        ∃ q, obs u = .ready q
          ∧ (q.index_attempt_id = none ∨ q.celery_task_id = none)) →
      obs t0 = .ready p →
      p.index_attempt_id ≠ none → p.celery_task_id ≠ none →
      p.index_attempt_id ≠ some launchedId →
      waitForFence timeoutS obs launchedId t = .raised .FENCE_MISMATCH := by
  suffices H : ∀ fuel t t0 p, t0 - t ≤ fuel → t ≤ t0 → t0 ≤ timeoutS →
      (∀ u, t ≤ u → u < t0 →
        ∃ q, obs u = .ready q
          ∧ (q.index_attempt_id = none ∨ q.celery_task_id = none)) →
      obs t0 = .ready p →
      p.index_attempt_id ≠ none → p.celery_task_id ≠ none →
      p.index_attempt_id ≠ some launchedId →
      waitForFence timeoutS obs launchedId t = .raised .FENCE_MISMATCH by
    intro t t0 p h1 h2 h3 h4 h5 h6 h7
    exact H (t0 - t) t t0 p le_rfl h1 h2 h3 h4 h5 h6 h7
  intro fuel
  induction fuel with
  | zero =>
    intro t t0 p hf hle htmo hobs hp hid hct hne
    have : t = t0 := by omega
    subst this
    have ht : ¬ timeoutS < t := by omega
    rw [waitForFence]
    simp only [ht, dite_false, hp]
    rw [if_neg (by simp [hid, hct]), if_pos hne]
  | succ n ih =>
    intro t t0 p hf hle htmo hobs hp hid hct hne
    by_cases heq : t = t0
    · subst heq
      have ht : ¬ timeoutS < t := by omega
      rw [waitForFence]
      simp only [ht, dite_false, hp]
      rw [if_neg (by simp [hid, hct]), if_pos hne]
    · have ht : ¬ timeoutS < t := by omega
      obtain ⟨q, hq, hqids⟩ := hobs t le_rfl (by omega)
      rw [waitForFence]
      simp only [ht, dite_false, hq]
      rw [if_pos hqids]
      exact ih (t + 1) t0 p (by omega) (by omega) htmo
        (fun u hu1 hu2 => hobs u (by omega) hu2) hp hid hct hne

/-- C6: the fence readiness wait of the Worker Entrypoint. If the fence keeps
a payload whose attempt and task ids stay unset through the whole timeout
window, the task raises with exit code FENCE_READINESS_TIMEOUT and the DB
state is untouched; and if within the window the payload becomes populated
with an attempt id different from the one the process was launched with, the
task raises with exit code FENCE_MISMATCH, again leaving the DB untouched. -/
theorem connector_indexing_task_fence_wait {DB : Type} (db : DB)
    (timeoutS : Nat) (launchedId : Int) (obs : Nat → FenceObs) :
    ((∀ u, u ≤ timeoutS →
        ∃ p, obs u = .ready p
          ∧ (p.index_attempt_id = none ∨ p.celery_task_id = none)) →
      connector_indexing_task_gate false false timeoutS obs launchedId db
        = (.raised .FENCE_READINESS_TIMEOUT, db))
    ∧ (∀ t0 p, t0 ≤ timeoutS →
        (∀ u, u < t0 →
          ∃ q, obs u = .ready q
            ∧ (q.index_attempt_id = none ∨ q.celery_task_id = none)) →
        obs t0 = .ready p →
        p.index_attempt_id ≠ none → p.celery_task_id ≠ none →
        p.index_attempt_id ≠ some launchedId →
        connector_indexing_task_gate false false timeoutS obs launchedId db
          = (.raised .FENCE_MISMATCH, db)) := by
  constructor
  · intro hobs
    have h := waitForFence_timeout timeoutS obs launchedId 0
      (fun u _ hu2 => hobs u hu2)
    simp [connector_indexing_task_gate, h]
  · intro t0 p htmo hobs hp hid hct hne
    have h := waitForFence_mismatch timeoutS obs launchedId 0 t0 p
      (Nat.zero_le t0) htmo (fun u _ hu2 => hobs u hu2) hp hid hct hne
    simp [connector_indexing_task_gate, h]

/-- Witness for C6: a fence that stays unready for the whole window times out
with the DB untouched, and a fence that becomes populated with attempt id 7
when the process was launched for attempt 5 raises the mismatch. -/
theorem connector_indexing_task_fence_wait_witness :
    connector_indexing_task_gate false false 2
      (fun _ => .ready ⟨none, none⟩) 5 (0 : Nat)
      = (.raised .FENCE_READINESS_TIMEOUT, 0)
    ∧ connector_indexing_task_gate false false 2
      (fun t => if t = 0 then .ready ⟨none, none⟩ else .ready ⟨some 7, some "x"⟩)
      5 (0 : Nat)
      = (.raised .FENCE_MISMATCH, 0) := by
  constructor
  · exact (connector_indexing_task_fence_wait 0 2 5 (fun _ => .ready ⟨none, none⟩)).1
      (fun u _ => ⟨⟨none, none⟩, rfl, Or.inl rfl⟩)
  · refine (connector_indexing_task_fence_wait 0 2 5 _).2 1 ⟨some 7, some "x"⟩
      (by omega) ?_ rfl (by simp) (by simp) (by simp)
    intro u hu
    have hu0 : u = 0 := by omega
    subst hu0
    exact ⟨⟨none, none⟩, rfl, Or.inl rfl⟩

/-- The outcome of submitting the Worker Entrypoint to the spawning client
inside connector_indexing_proxy_task: success, a broken-pipe class exception
(retried with backoff), or any other exception (re-raised). -/
inductive SubmitObs where
  | ok
  | excBrokenPipe
  | excOther
  deriving DecidableEq, Repr

/-- What one five second tick of the supervision loop observes right after it
renews the watchdog and active signals. The two stage activity TTL grace
logic is folded into the single activityTimeout observation, the tick on
which the watchdog decides the timeout is exceeded. The exception
observations carry the formatted traceback string. -/
inductive TickObs where
  | keepRunning
  | jobDone (job : SimpleJobModel) (completion : Option Int)
  | terminating
  | activityTimeout
  | tickExcBrokenPipe (excStr : String)
  | tickExcOther (excStr : String)
  deriving DecidableEq, Repr

/-- How one run of connector_indexing_proxy_task leaves the function. -/
inductive ProxyExit where
  | retryRaised
  | submitExcRaised
  | spawnFailedReturned
  | spawnNotAliveReturned
  | runtimeErrorRaised
  | finishedReturned
  | stillRunning
  deriving DecidableEq, Repr

/-- The observable outcome of one run of connector_indexing_proxy_task: how
it exited, the SimpleJobResult it carried, how many times it invoked
set_watchdog(True), and whether set_watchdog(False) was invoked on the exit
path taken. -/
structure ProxyOutcome where
  exit : ProxyExit
  result : SimpleJobResultM
  setWatchdogTrueCount : Nat
  clearedWatchdogAtExit : Bool
  deriving DecidableEq, Repr

/-- The max_retries of the shared task declaration of
connector_indexing_proxy_task. -/
def PROXY_MAX_RETRIES : Nat := 3

/-- The inputs of one run of connector_indexing_proxy_task: the submission
outcome, the celery retry counter of this request, whether job.process is
set, whether the spawned process came alive within the bounded wait, whether
the IndexAttempt row was found, the connector source recorded from it, and
the per tick observations of the supervision loop. -/
structure ProxyEnv where
  submit : SubmitObs
  retries : Nat
  jobHasProcess : Bool
  spawnAlive : Bool
  attemptFound : Bool
  connectorSource : String
  ticks : List TickObs
  deriving DecidableEq, Repr

/-- How the supervision loop hands control back: fall through to the exit
and reporting stage, raise the celery retry, or run out of observations
while the job is still being supervised. -/
inductive LoopOut where
  | exitStage (res : SimpleJobResultM) (count : Nat)
  | retryRaise (res : SimpleJobResultM) (count : Nat)
  | ranOut (res : SimpleJobResultM) (count : Nat)
  deriving DecidableEq, Repr

/-- The supervision loop of connector_indexing_proxy_task. Every tick starts
by renewing the watchdog signal, counted in count. A finished job is
classified through process_job_result, whose exception is caught with the
result left as it was; termination signal and activity timeout set the
terminal status and break; a broken-pipe tick exception raises the celery
retry while retries remain and otherwise, like any other tick exception,
is caught by the outer handler which records WATCHDOG_EXCEPTIONED with the
traceback before falling through to the exit stage. -/
def superviseLoop (retries : Nat) (res : SimpleJobResultM) (count : Nat) :
    List TickObs → LoopOut
  | [] => .ranOut res count
  | tick :: rest =>
    let count1 := count + 1
    match tick with
    | .keepRunning => superviseLoop retries res count1 rest
    | .jobDone job completion =>
      match process_job_result job res.connector_source completion with
      | .ok r => .exitStage r count1
      | .error _ => .exitStage res count1
    | .terminating =>
      .exitStage { res with status := .TERMINATED_BY_SIGNAL } count1
    | .activityTimeout =>
      .exitStage { res with status := .TERMINATED_BY_ACTIVITY_TIMEOUT } count1
    | .tickExcBrokenPipe excStr =>
      if retries < PROXY_MAX_RETRIES then .retryRaise res count1
      else .exitStage
        { res with status := .WATCHDOG_EXCEPTIONED, exception_str := some excStr } count1
    | .tickExcOther excStr =>
      .exitStage
        { res with status := .WATCHDOG_EXCEPTIONED, exception_str := some excStr } count1

/-- The exit and reporting stage at the end of connector_indexing_proxy_task.
With an exception string present the attempt is marked failed and a
RuntimeError is raised; otherwise the terminal cases are reported and the
task returns. Both paths invoke set_watchdog(False) first. -/
def proxyExitStage (res : SimpleJobResultM) (count : Nat) : ProxyOutcome :=
  match res.exception_str with
  | some _ => ⟨.runtimeErrorRaised, res, count, true⟩
  | none => ⟨.finishedReturned, res, count, true⟩

/-- One run of connector_indexing_proxy_task. The early paths return or
raise before the supervision loop and never touch the watchdog signal; the
supervision loop renews it every tick; only the exit stage clears it. -/
def connector_indexing_proxy_task (env : ProxyEnv) : ProxyOutcome :=
  match env.submit with
  | .excBrokenPipe =>
    if env.retries < PROXY_MAX_RETRIES then ⟨.retryRaised, initJobResult, 0, false⟩
    else ⟨.submitExcRaised, initJobResult, 0, false⟩
  | .excOther => ⟨.submitExcRaised, initJobResult, 0, false⟩
  | .ok =>
    if env.jobHasProcess = false then
      ⟨.spawnFailedReturned, { initJobResult with status := .SPAWN_FAILED }, 0, false⟩
    else if env.spawnAlive = false then
      ⟨.spawnNotAliveReturned, { initJobResult with status := .SPAWN_NOT_ALIVE }, 0, false⟩
    else if env.attemptFound = false then
      proxyExitStage
        { initJobResult with
            status := .WATCHDOG_EXCEPTIONED
            exception_str := some "RuntimeError: Index attempt not found" } 0
    else
      match superviseLoop env.retries
        { initJobResult with connector_source := some env.connectorSource } 0 env.ticks with
      | .exitStage res count => proxyExitStage res count
      | .retryRaise res count => ⟨.retryRaised, res, count, false⟩
      | .ranOut res count => ⟨.stillRunning, res, count, false⟩

/-- A run whose job submission succeeded but whose job has no process: the
SPAWN_FAILED early return. -/
def envSpawnFailed : ProxyEnv :=
  { submit := .ok, retries := 0, jobHasProcess := false, spawnAlive := true,
    attemptFound := true, connectorSource := "web", ticks := [] }

/-- Counterexample to C5 as stated: the SPAWN_FAILED classification is an
exit path of connector_indexing_proxy_task on which the task returns without
ever invoking set_watchdog(False). -/
theorem watchdog_cleared_on_exit_cex :
    (connector_indexing_proxy_task envSpawnFailed).exit = .spawnFailedReturned
    ∧ (connector_indexing_proxy_task envSpawnFailed).exit ≠ .stillRunning
    ∧ (connector_indexing_proxy_task envSpawnFailed).clearedWatchdogAtExit = false := by
  refine ⟨rfl, by decide, rfl⟩

/-- C5 amended: set_watchdog(False) is invoked before the task exits on both
finalization paths (the normal return and the exception reporting raise),
which are the only exit paths on which this run has set the watchdog signal;
the early exit paths (submission failure, spawn failure, spawn-not-alive)
exit without invoking set_watchdog at all, and once supervision has started
every exit other than the celery broken-pipe retry re-raise clears the
signal. -/
theorem watchdog_cleared_on_exit (env : ProxyEnv) :
    ((connector_indexing_proxy_task env).exit = .runtimeErrorRaised
        ∨ (connector_indexing_proxy_task env).exit = .finishedReturned →
      (connector_indexing_proxy_task env).clearedWatchdogAtExit = true)
    ∧ ((connector_indexing_proxy_task env).exit = .spawnFailedReturned
        ∨ (connector_indexing_proxy_task env).exit = .spawnNotAliveReturned
        ∨ (connector_indexing_proxy_task env).exit = .submitExcRaised
        ∨ (connector_indexing_proxy_task env).exit = .retryRaised →
      (connector_indexing_proxy_task env).clearedWatchdogAtExit = false)
    ∧ (env.submit = .ok → env.jobHasProcess = true → env.spawnAlive = true →
        (connector_indexing_proxy_task env).exit ≠ .stillRunning →
        (connector_indexing_proxy_task env).exit ≠ .retryRaised →
        (connector_indexing_proxy_task env).clearedWatchdogAtExit = true) := by
  obtain ⟨sub, retries, hasP, alive, found, src, ticks⟩ := env
  cases sub
  case excBrokenPipe =>
    by_cases h : retries < PROXY_MAX_RETRIES <;>
      simp [connector_indexing_proxy_task, h]
  case excOther => simp [connector_indexing_proxy_task]
  case ok =>
    cases hasP
    case false => simp [connector_indexing_proxy_task]
    case true =>
      cases alive
      case false => simp [connector_indexing_proxy_task]
      case true =>
        cases found
        case false => simp [connector_indexing_proxy_task, proxyExitStage]
        case true =>
          rcases hloop : superviseLoop retries
              { initJobResult with connector_source := some src } 0 ticks with
            ⟨res, count⟩ | ⟨res, count⟩ | ⟨res, count⟩
          · cases hexc : res.exception_str <;>
              simp [connector_indexing_proxy_task, hloop, proxyExitStage, hexc]
          · simp [connector_indexing_proxy_task, hloop]
          · simp [connector_indexing_proxy_task, hloop]

/-- A run whose spawned job finishes cleanly on the first supervision tick. -/
def envFinishing : ProxyEnv :=
  { submit := .ok, retries := 0, jobHasProcess := true, spawnAlive := true,
    attemptFound := true, connectorSource := "web",
    ticks := [.jobDone ⟨"completed", true, some 0, ""⟩ none] }

/-- Witness for C5 amended: the cleanly finishing run exits by the normal
return with the watchdog signal cleared. -/
theorem watchdog_cleared_on_exit_witness :
    (connector_indexing_proxy_task envFinishing).exit = .finishedReturned
    ∧ (connector_indexing_proxy_task envFinishing).clearedWatchdogAtExit = true :=
  ⟨rfl, (watchdog_cleared_on_exit envFinishing).1 (Or.inr rfl)⟩

/-- Modelled from the spec: the OnyxCeleryPriority levels from
onyx.configs.constants (not under src) that beat_schedule.py uses. -/
inductive OnyxCeleryPriorityM where
  | HIGHEST
  | HIGH
  | MEDIUM
  | LOW
  deriving DecidableEq, Repr

/-- Modelled from the spec: ONYX_CLOUD_CELERY_TASK_PREFIX from
onyx.configs.constants (not under src); the comment in beat_schedule.py
states the prefix is the word cloud. -/
def cloudNamePrefixStr : String := "cloud"

/-- Modelled from the spec: the name of the shared tenant fan-out task
OnyxCeleryTask.CLOUD_BEAT_TASK_GENERATOR from onyx.configs.constants (not
under src). -/
def cloudBeatTaskGeneratorName : String := "cloud_beat_task_generator"

/-- BEAT_EXPIRES_DEFAULT from beat_schedule.py: fifteen minutes in seconds. -/
def BEAT_EXPIRES_DEFAULT : ℚ := 15 * 60

/-- The options dict of a beat task entry; each key is optional because
make_cloud_generator_task copies only the keys that are present. -/
structure BeatOptions where
  queue : Option String
  priority : Option OnyxCeleryPriorityM
  expires : Option ℚ
  deriving DecidableEq, Repr

/-- The kwargs dict that a generated cloud task carries: the original task
name plus the optional queue, priority and expires of the template. -/
structure CloudKwargs where
  task_name : String
  queue : Option String
  priority : Option OnyxCeleryPriorityM
  expires : Option ℚ
  deriving DecidableEq, Repr

/-- One beat schedule entry. Schedules are timedeltas, modelled as rational
numbers of seconds; kwargs is present only on generated cloud tasks. -/
structure BeatTask where
  name : String
  task : String
  schedule : ℚ
  options : BeatOptions
  kwargs : Option CloudKwargs
  deriving DecidableEq, Repr

/-- make_cloud_generator_task from beat_schedule.py: wraps a template as a
tenant fan-out entry named with the cloud prefix, routed through the shared
generator task at HIGHEST priority with the default expiry, carrying the
original task name and the optional queue, priority and expires of the
template in kwargs; the schedule is copied unchanged here. -/
def make_cloud_generator_task (task : BeatTask) : BeatTask :=
  { name := cloudNamePrefixStr ++ "_" ++ task.name
    task := cloudBeatTaskGeneratorName
    schedule := task.schedule
    options :=
      { queue := none
        priority := some .HIGHEST
        expires := some BEAT_EXPIRES_DEFAULT }
    kwargs := some
      { task_name := task.task
        queue := task.options.queue
        priority := task.options.priority
        expires := task.options.expires } }

/-- generate_cloud_tasks from beat_schedule.py: a ValueError when the beat
multiplier is not positive, otherwise the generated tasks with their
schedules multiplied by the beat multiplier followed by the system wide beat
tasks unchanged. The source builds the generated list first and multiplies
the schedules in a second loop over the same list; the fused map here is the
same list. -/
def generate_cloud_tasks (beat_tasks beat_templates : List BeatTask)
    (beat_multiplier : ℚ) : Except String (List BeatTask) :=
  if beat_multiplier ≤ 0 then .error "beat_multiplier must be positive!"
  else
    .ok ((beat_templates.map (fun t =>
      let cloud_task := make_cloud_generator_task t
      { cloud_task with schedule := cloud_task.schedule * beat_multiplier }))
      ++ beat_tasks)

/-- C9: generate_cloud_tasks raises exactly when the multiplier is not
positive; for a positive multiplier it returns, per template, one task named
with the cloud prefix whose task is the shared fan-out generator at HIGHEST
priority, whose kwargs carry the original task name with the optional queue,
priority and expires of the template, and whose schedule is the template
schedule multiplied by the multiplier, followed by the given system wide
cloud tasks with their schedules unmultiplied. -/
theorem generate_cloud_tasks_spec (beat_tasks beat_templates : List BeatTask)
    (m : ℚ) :
    ((∃ e, generate_cloud_tasks beat_tasks beat_templates m = .error e) ↔ m ≤ 0)
    ∧ (0 < m →
      generate_cloud_tasks beat_tasks beat_templates m
        = .ok ((beat_templates.map (fun t =>
            { name := cloudNamePrefixStr ++ "_" ++ t.name
              task := cloudBeatTaskGeneratorName
              schedule := t.schedule * m
              options :=
                { queue := none
                  priority := some .HIGHEST
                  expires := some BEAT_EXPIRES_DEFAULT }
              kwargs := some
                { task_name := t.task
                  queue := t.options.queue
                  priority := t.options.priority
                  expires := t.options.expires } }))
            ++ beat_tasks)) := by
  constructor
  · constructor
    · rintro ⟨e, he⟩
      by_contra hm
      simp [generate_cloud_tasks, hm] at he
    · intro hm
      exact ⟨"beat_multiplier must be positive!", by simp [generate_cloud_tasks, hm]⟩
  · intro hm
    have hm0 : ¬ m ≤ 0 := not_le.mpr hm
    simp only [generate_cloud_tasks, hm0, if_false, make_cloud_generator_task]

/-- A concrete beat template used by the C9 witness. -/
def sampleTemplate : BeatTask :=
  { name := "check-for-indexing"
    task := "check_for_indexing"
    schedule := 15
    options :=
      { queue := none
        priority := some .MEDIUM
        expires := some BEAT_EXPIRES_DEFAULT }
    kwargs := none }

/-- A concrete system wide cloud task used by the C9 witness. -/
def sampleCloudTask : BeatTask :=
  { name := "cloud_monitor-alembic"
    task := "cloud_monitor_alembic"
    schedule := 3600
    options :=
      { queue := some "monitoring"
        priority := some .HIGH
        expires := some BEAT_EXPIRES_DEFAULT }
    kwargs := none }

/-- Witness for C9 at multiplier 8 with one template and one fixed cloud
task: the template schedule 15 becomes 120 while the fixed task keeps
schedule 3600, and multiplier 0 raises. -/
theorem generate_cloud_tasks_spec_witness :
    generate_cloud_tasks [sampleCloudTask] [sampleTemplate] 8
      = .ok
        [{ name := "cloud_check-for-indexing"
           task := cloudBeatTaskGeneratorName
           schedule := 120
           options :=
             { queue := none
               priority := some .HIGHEST
               expires := some BEAT_EXPIRES_DEFAULT }
           kwargs := some
             { task_name := "check_for_indexing"
               queue := none
               priority := some .MEDIUM
               expires := some BEAT_EXPIRES_DEFAULT } },
         sampleCloudTask]
    ∧ (∃ e, generate_cloud_tasks [sampleCloudTask] [sampleTemplate] 0 = .error e) := by
  constructor
  · have h := (generate_cloud_tasks_spec [sampleCloudTask] [sampleTemplate] 8).2
      (by norm_num)
    rw [h]
    simp only [List.map_cons, List.map_nil, List.cons_append, List.nil_append,
      Except.ok.injEq, List.cons.injEq, BeatTask.mk.injEq]
    norm_num [sampleTemplate]
    rfl
  · exact (generate_cloud_tasks_spec [sampleCloudTask] [sampleTemplate] 0).1.mpr le_rfl
